import Mathlib

/-!
Verification of the p2p-meetings repository core against its specification.

The development shallowly embeds the Python modules under `p2p_meetings/`:

* `constants.py`     — literal constants.
* `message_types.py` — the dynamically-attributed `SocketMessage` objects,
  the three message families (`MeetingRequest`, `ServerResponse`,
  `P2PMessage`) with their `is_valid` checks, `_get_dict`, `encode`, and
  `decode_message`.
* `socket_util.py`   — the `ListenThread.listen_and_do` receive loop,
  modelled as a function from a trace of receive events to the list of
  observable actions it performs.
* `central_server.py` — `MeetingEntry`, the `Server` state with its two
  lock-protected counters, and the JOIN/CREATE branches of
  `handle_request` (locks serialize counter accesses, so the counters are
  modelled as sequentially-updated fields).
* `p2p_nodes.py`     — `PeerInfo`, the `HostNode` peer table and its
  per-peer operations, `StarHostNode.handle_question`,
  `MeshHostNode.wait_for_connections`'s per-accept body, and
  `HostNode.remove_all_users`.

Python values decoded from JSON are modelled by `PyVal`; Python exceptions
that the code can raise are modelled with `Except PyErr`.  The standard
library's `json.loads` is modelled by a small executable JSON reader
(`json_loads`) covering the fragment the application exchanges, and
`json.dumps` by `json_dumps`; the pair is used exactly where the source
calls the library.  CPython dict iteration (including its
size-change check that raises `RuntimeError`) is modelled explicitly where
the source iterates a dict it mutates.
-/

namespace P2PMeetings

/-! ### constants.py -/

def DEFAULT_USERNAME : String := "default_user"
def HOST_USERNAME : String := "HOST"
def SERVER_PORT : Nat := 2000
def DEFAULT_P2P_PORT : Nat := 3100
def BAD_WORDS : List String := ["xxx", "yyy", "zzz"]
def MAX_WARNINGS : Nat := 3
def MSG_DELIM : String := ";"

/-! ### Python-value and exception model -/

/-! A Python value as produced by `json.loads`: `None`, `bool`, `int`,
`str`, `list`, or `dict` with string keys (insertion ordered).  Lists and
dict item sequences are their own inductives (mutually with `PyVal`) so
every function over them is structurally recursive and computes. -/
mutual
inductive PyVal where
  | pyNull : PyVal
  | pyBool (b : Bool) : PyVal
  | pyInt (n : Int) : PyVal
  | pyStr (s : String) : PyVal
  | pyList (xs : PyList) : PyVal
  | pyDict (kvs : PyKVs) : PyVal

inductive PyList where
  | nil : PyList
  | cons (v : PyVal) (t : PyList) : PyList

inductive PyKVs where
  | nil : PyKVs
  | cons (k : String) (v : PyVal) (t : PyKVs) : PyKVs
end

/-- Build a `PyList` from a Lean list (literal notation helper). -/
def pyItems : List PyVal → PyList
  | [] => .nil
  | v :: t => .cons v (pyItems t)

/-- Build dict items from a Lean association list (literal helper). -/
def pyFields : List (String × PyVal) → PyKVs
  | [] => .nil
  | (k, v) :: t => .cons k v (pyFields t)

/-- Dict key lookup (first match). -/
def PyKVs.find? (kvs : PyKVs) (key : String) : Option PyVal :=
  match kvs with
  | .nil => none
  | .cons k v t => if k = key then some v else t.find? key

/-- `key in d` for a dict. -/
def PyKVs.hasKey (kvs : PyKVs) (key : String) : Bool :=
  match kvs with
  | .nil => false
  | .cons k _ t => k = key || t.hasKey key

/-- Does a list contain a string element that is one of `fields`? -/
def pyListHasFieldStr (fields : List String) : PyList → Bool
  | .nil => false
  | .cons v t =>
      (match v with
       | .pyStr s => decide (s ∈ fields)
       | _ => false) || pyListHasFieldStr fields t

/-- Does a list contain the string element `s0`? -/
def pyListHasStr (s0 : String) : PyList → Bool
  | .nil => false
  | .cons v t =>
      (match v with
       | .pyStr s => s = s0
       | _ => false) || pyListHasStr s0 t

/-- The Python exception kinds this code base can raise. -/
inductive PyErr where
  | typeError : PyErr
  | attributeError : PyErr
  | runtimeError : PyErr
deriving Repr, DecidableEq

/-- Python substring test `needle in hay` for strings, on character lists. -/
def occursIn (needle hay : List Char) : Bool :=
  match hay with
  | [] => needle.isEmpty
  | _ :: t => needle.isPrefixOf hay || occursIn needle t

/-- Python `sub in s` for strings. -/
def strContains (s sub : String) : Bool :=
  occursIn sub.toList s.toList

/-! ### message_types.py : SocketMessage objects

A constructed `SocketMessage` is a Python object holding `msg_fields` and a
set of attributes, each either a plain value or a nested `SocketMessage`
(nested dicts are converted recursively by `__init__`). -/

/-! An attribute of a `SocketMessage` object is either a plain Python
value or a nested `SocketMessage` (with its own field list and
attributes). -/
mutual
inductive SMAttr where
  | val (v : PyVal) : SMAttr
  | sub (msg_fields : List String) (attrs : SMAttrs) : SMAttr

inductive SMAttrs where
  | nil : SMAttrs
  | cons (k : String) (a : SMAttr) (t : SMAttrs) : SMAttrs
end

/-- The attribute names of an object (its `__dict__` keys, in order). -/
def SMAttrs.keys : SMAttrs → List String
  | .nil => []
  | .cons k _ t => k :: t.keys

/-- Attribute lookup by name (first match). -/
def SMAttrs.get? (attrs : SMAttrs) (key : String) : Option SMAttr :=
  match attrs with
  | .nil => none
  | .cons k a t => if k = key then some a else t.get? key

def REQUEST_FIELDS : List String := ["type", "data", "message"]
def LIST : String := "list"
def JOIN : String := "join"
def CREATE : String := "create"
def REQUEST_TYPES : List String := [LIST, JOIN, CREATE]
def STAR : String := "star"
def MESH : String := "mesh"
def MEETING_TYPES : List String := [STAR, MESH]

def DATA_FIELDS : List String :=
  ["meetingType", "meetingID", "hosts", "username", "host", "listen_p2p_port"]

def RESPONSE_FIELDS : List String := ["type", "success", "message", "data"]

def P2P_MESSAGE_FIELDS : List String := ["type", "message", "data"]
def P2P_TEXT : String := "p2p_text"
def P2P_REGISTER_USERNAME : String := "p2p_username"
def P2P_REGISTER_PORT : String := "p2p_register_port"
def P2P_MESH_CONNECT : String := "p2p_mesh_connect"
def P2P_MESSAGE_TYPES : List String :=
  [P2P_TEXT, P2P_REGISTER_USERNAME, P2P_MESH_CONNECT, P2P_REGISTER_PORT]

/-- `setattr` on the attribute list: overwrite an existing attribute of the
same name, otherwise append. -/
def setIn (attrs : SMAttrs) (k : String) (a : SMAttr) : SMAttrs :=
  match attrs with
  | .nil => .cons k a .nil
  | .cons k' a' rest =>
      if k' = k then .cons k a rest else .cons k' a' (setIn rest k a)

mutual
/-- The body of `SocketMessage.__init__` for a dict argument: iterate the
dict items in order; keys in `msg_fields` are set as attributes (a dict
value is recursively converted with field list `DATA_FIELDS + msg_fields`),
other keys are logged and ignored. -/
def buildAttrs (fields : List String) : PyKVs → SMAttrs → SMAttrs
  | .nil, acc => acc
  | .cons k v rest, acc =>
      if k ∈ fields then
        buildAttrs fields rest (setIn acc k (convertAttr fields v))
      else
        -- logging.error("Unexpected field for SocketMessage: ...")
        buildAttrs fields rest acc

/-- Convert one dict value to an attribute: a dict value becomes a nested
`SocketMessage` with field list `DATA_FIELDS + msg_fields`, anything else
is stored as-is. -/
def convertAttr (fields : List String) : PyVal → SMAttr
  | .pyDict kvs2 =>
      .sub (DATA_FIELDS ++ fields)
           (buildAttrs (DATA_FIELDS ++ fields) kvs2 .nil)
  | other => .val other
end

/-- The `SocketMessage` object constructed by `__init__` from a dict. -/
def initDict (fields : List String) (kvs : PyKVs) : SMAttr :=
  .sub fields (buildAttrs fields kvs .nil)

/-- `SocketMessage.__init__(msg_dict, msg_fields)`.  `for key in msg_dict`
iterates dict keys, string characters, or list elements, and raises
`TypeError` on non-iterable arguments; `msg_dict[key]` on a string or list
indexed by a string key raises `TypeError`. -/
def socketMessageInit (msg_dict : PyVal) (fields : List String) :
    Except PyErr SMAttr :=
  match msg_dict with
  | .pyDict kvs => .ok (initDict fields kvs)
  | .pyStr s =>
      -- iterating a str yields its one-character strings; none of the
      -- application's field names has length 1, but model it faithfully:
      -- a character that is a field name leads to `msg_dict[key]`,
      -- a str-by-str indexing, which raises TypeError.
      if s.toList.any (fun c => String.mk [c] ∈ fields) then
        .error .typeError
      else .ok (.sub fields .nil)
  | .pyList xs =>
      -- iterating a list yields its elements; an element equal to a field
      -- name leads to `msg_dict[key]`, a list-by-str indexing: TypeError.
      if pyListHasFieldStr fields xs then
        .error .typeError
      else .ok (.sub fields .nil)
  | _ => .error .typeError   -- int, bool, None are not iterable

/-- `MeetingRequest.__init__`. -/
def MeetingRequestInit (d : PyVal) : Except PyErr SMAttr :=
  socketMessageInit d REQUEST_FIELDS

/-- `ServerResponse.__init__`. -/
def ServerResponseInit (d : PyVal) : Except PyErr SMAttr :=
  socketMessageInit d RESPONSE_FIELDS

/-- Top-level `setattr` on a constructed message. -/
def setAttrTop (m : SMAttr) (k : String) (a : SMAttr) : SMAttr :=
  match m with
  | .sub fields attrs => .sub fields (setIn attrs k a)
  | v => v

/-- `"message" not in request_dict` from `P2PMessage.__init__`, evaluated on
whatever the constructor argument was (dict keys / substring / elements). -/
def hasMessageKey (d : PyVal) : Bool :=
  match d with
  | .pyDict kvs => kvs.hasKey "message"
  | .pyStr s => strContains s "message"
  | .pyList xs => pyListHasStr "message" xs
  | _ => false

/-- `P2PMessage.__init__`: the generic init, then
`if "message" not in request_dict: self.message = ""`. -/
def P2PMessageInit (d : PyVal) : Except PyErr SMAttr := do
  let m ← socketMessageInit d P2P_MESSAGE_FIELDS
  if hasMessageKey d then
    return m
  else
    return setAttrTop m "message" (.val (.pyStr ""))

/-- Attribute lookup `self.k`: raises `AttributeError` when the attribute is
absent (or when the receiver is a plain value without such an attribute). -/
def getattrE (m : SMAttr) (k : String) : Except PyErr SMAttr :=
  match m with
  | .sub _ attrs =>
      match attrs.get? k with
      | some a => .ok a
      | none => .error .attributeError
  | .val _ => .error .attributeError

/-- Python `attr == s` for a string literal `s`: true only when the
attribute is a `str` with the same contents. -/
def attrEqStr (a : SMAttr) (s : String) : Bool :=
  match a with
  | .val (.pyStr t) => t = s
  | _ => false

/-- Python `type(attr) is int` (`bool` is not `int` under `type(..) is`). -/
def attrIsInt (a : SMAttr) : Bool :=
  match a with
  | .val (.pyInt _) => true
  | _ => false

/-- Python `type(attr) is bool`. -/
def attrIsBool (a : SMAttr) : Bool :=
  match a with
  | .val (.pyBool _) => true
  | _ => false

/-- Python `type(attr) is list`. -/
def attrIsList (a : SMAttr) : Bool :=
  match a with
  | .val (.pyList _) => true
  | _ => false

/-- Python `type(attr) is str`. -/
def attrIsStr (a : SMAttr) : Bool :=
  match a with
  | .val (.pyStr _) => true
  | _ => false

/-- `MeetingRequest.is_valid`.  Attribute accesses can raise
`AttributeError` when a field is absent. -/
def MeetingRequestIsValid (m : SMAttr) : Except PyErr Bool := do
  let t ← getattrE m "type"
  if attrEqStr t LIST then
    return true
  else if attrEqStr t JOIN then
    let d ← getattrE m "data"
    let mid ← getattrE d "meetingID"
    return attrIsInt mid
  else if attrEqStr t CREATE then
    let d ← getattrE m "data"
    let mt ← getattrE d "meetingType"
    return MEETING_TYPES.any (fun ty => attrEqStr mt ty)
  else
    return false

/-- `ServerResponse.is_valid`. -/
def ServerResponseIsValid (m : SMAttr) : Except PyErr Bool := do
  let s ← getattrE m "success"
  if !attrIsBool s then
    return false
  else
    let t ← getattrE m "type"
    if attrEqStr t LIST then
      let d ← getattrE m "data"
      return attrIsList d
    else if attrEqStr t JOIN then
      return true
    else if attrEqStr t CREATE then
      return true
    else
      return false

/-- `P2PMessage.is_valid`. -/
def P2PMessageIsValid (m : SMAttr) : Except PyErr Bool := do
  let t ← getattrE m "type"
  return P2P_MESSAGE_TYPES.any (fun ty => attrEqStr t ty)

/-- Select, in `msg_fields` order, the keys present in a converted
attribute dict (the `for key in self.msg_fields: if hasattr(self, key)`
loop of `_get_dict`). -/
def selectFields (fields : List String) (d : PyKVs) : PyKVs :=
  match fields with
  | [] => .nil
  | k :: rest =>
      match d.find? k with
      | some v => .cons k v (selectFields rest d)
      | none => selectFields rest d

mutual
/-- `SocketMessage._get_dict`: for each key of `msg_fields` that is a set
attribute, emit the attribute (nested messages converted recursively). -/
def smGetDict : SMAttr → PyVal
  | .val v => v
  | .sub fields attrs => .pyDict (selectFields fields (attrsToDict attrs))

/-- Convert every attribute of an object back to a Python value. -/
def attrsToDict : SMAttrs → PyKVs
  | .nil => .nil
  | .cons k a rest => .cons k (smGetDict a) (attrsToDict rest)
end

/-! ### The `json` library model

`json.dumps` / `json.loads` are external-library collaborators; they are
modelled by an executable writer and reader for the JSON fragment the
application exchanges (objects, arrays, strings without escape sequences,
integers, booleans, null).  Braces are written with `\x7b`/`\x7d`
character escapes. -/

def lbrace : Char := Char.ofNat 123
def rbrace : Char := Char.ofNat 125

/-- JSON string escaping (quote and backslash). -/
def escapeJson (s : String) : String :=
  String.mk (s.toList.foldr
    (fun c acc =>
      if c == '"' then '\\' :: '"' :: acc
      else if c == '\\' then '\\' :: '\\' :: acc
      else c :: acc) [])

mutual
/-- `json.dumps` with CPython's default separators `", "` and `": "`. -/
def json_dumps : PyVal → String
  | .pyNull => "null"
  | .pyBool true => "true"
  | .pyBool false => "false"
  | .pyInt n => toString n
  | .pyStr s => "\"" ++ escapeJson s ++ "\""
  | .pyList xs => "[" ++ dumpsElems xs ++ "]"
  | .pyDict kvs => "\x7b" ++ dumpsMembers kvs ++ "\x7d"

def dumpsElems : PyList → String
  | .nil => ""
  | .cons x .nil => json_dumps x
  | .cons x (.cons y rest) =>
      json_dumps x ++ ", " ++ dumpsElems (.cons y rest)

def dumpsMembers : PyKVs → String
  | .nil => ""
  | .cons k v .nil => "\"" ++ escapeJson k ++ "\": " ++ json_dumps v
  | .cons k v (.cons k2 v2 rest) =>
      "\"" ++ escapeJson k ++ "\": " ++ json_dumps v ++ ", " ++
        dumpsMembers (.cons k2 v2 rest)
end

def skipWs (cs : List Char) : List Char :=
  match cs with
  | c :: rest =>
      if c == ' ' || c == '\n' || c == '\t' || c == '\r' then skipWs rest
      else c :: rest
  | [] => []

/-- Read a JSON string body (no escape sequences) up to the closing quote. -/
def parseStrChars (cs : List Char) : Option (List Char × List Char) :=
  match cs with
  | [] => none
  | c :: rest =>
      if c == '"' then some ([], rest)
      else if c == '\\' then none
      else (parseStrChars rest).map (fun p => (c :: p.1, p.2))

def parseDigits (cs : List Char) (acc : Option Nat) :
    Option (Nat × List Char) :=
  match cs with
  | c :: rest =>
      if c.isDigit then
        parseDigits rest (some ((acc.getD 0) * 10 + (c.toNat - 48)))
      else acc.map (fun n => (n, c :: rest))
  | [] => acc.map (fun n => (n, []))

def parseNum (cs : List Char) : Option (PyVal × List Char) :=
  match cs with
  | '-' :: rest =>
      (parseDigits rest none).map (fun p => (.pyInt (-(p.1 : Int)), p.2))
  | _ => (parseDigits cs none).map (fun p => (.pyInt (p.1 : Int), p.2))

mutual
def parseVal : Nat → List Char → Option (PyVal × List Char)
  | 0, _ => none
  | Nat.succ fuel, cs =>
      match skipWs cs with
      | [] => none
      | c :: rest =>
          if c == 'n' then
            if rest.take 3 == ['u', 'l', 'l'] then
              some (.pyNull, rest.drop 3)
            else none
          else if c == 't' then
            if rest.take 3 == ['r', 'u', 'e'] then
              some (.pyBool true, rest.drop 3)
            else none
          else if c == 'f' then
            if rest.take 4 == ['a', 'l', 's', 'e'] then
              some (.pyBool false, rest.drop 4)
            else none
          else if c == '"' then
            (parseStrChars rest).map (fun p => (.pyStr (String.mk p.1), p.2))
          else if c == '[' then
            parseElems fuel rest
          else if c == lbrace then
            parseMembers fuel rest
          else if c == '-' || c.isDigit then
            parseNum (c :: rest)
          else none

def parseElems : Nat → List Char → Option (PyVal × List Char)
  | 0, _ => none
  | Nat.succ fuel, cs =>
      match skipWs cs with
      | c :: rest =>
          if c == ']' then some (.pyList .nil, rest)
          else
            match parseVal fuel (c :: rest) with
            | none => none
            | some (v, r) =>
                match skipWs r with
                | ',' :: r2 =>
                    match parseElems fuel r2 with
                    | some (.pyList vs, r3) =>
                        some (.pyList (.cons v vs), r3)
                    | _ => none
                | ']' :: r2 => some (.pyList (.cons v .nil), r2)
                | _ => none
      | [] => none

def parseMembers : Nat → List Char → Option (PyVal × List Char)
  | 0, _ => none
  | Nat.succ fuel, cs =>
      match skipWs cs with
      | c :: rest =>
          if c == rbrace then some (.pyDict .nil, rest)
          else if c == '"' then
            match parseStrChars rest with
            | none => none
            | some (kcs, r) =>
                match skipWs r with
                | ':' :: r2 =>
                    match parseVal fuel r2 with
                    | none => none
                    | some (v, r3) =>
                        match skipWs r3 with
                        | ',' :: r4 =>
                            match parseMembers fuel r4 with
                            | some (.pyDict kvs, r5) =>
                                some (.pyDict (.cons (String.mk kcs) v kvs),
                                      r5)
                            | _ => none
                        | c5 :: r5 =>
                            if c5 == rbrace then
                              some (.pyDict (.cons (String.mk kcs) v .nil),
                                    r5)
                            else none
                        | [] => none
                | _ => none
          else none
      | [] => none
end

/-- `json.loads`: parse a complete JSON document, requiring the whole
input to be consumed. -/
def json_loads (s : String) : Option PyVal :=
  match parseVal (2 * s.length + 2) s.toList with
  | some (v, rest) => if (skipWs rest).isEmpty then some v else none
  | none => none

/-- `SocketMessage.encode`: serialize `_get_dict` and append the
single-character frame delimiter. -/
def smEncode (m : SMAttr) : String :=
  json_dumps (smGetDict m) ++ MSG_DELIM

/-- `decode_message(message_str, MessageType)`: `json.loads` failures are
caught and give `None`; the constructor runs outside the `try`, so an
exception it raises propagates to the caller. -/
def decode_message (message_str : String)
    (MessageType : PyVal → Except PyErr SMAttr) :
    Except PyErr (Option SMAttr) :=
  match json_loads message_str with
  | none => .ok none
  | some v => (MessageType v).map some

/-- Unfolding lemma for `smGetDict` on plain values. -/
@[simp] theorem smGetDict_val (v : PyVal) : smGetDict (.val v) = v := rfl

/-- Unfolding lemma for `smGetDict` on objects. -/
@[simp] theorem smGetDict_sub (fields : List String) (attrs : SMAttrs) :
    smGetDict (.sub fields attrs) =
      .pyDict (selectFields fields (attrsToDict attrs)) := rfl

@[simp] theorem attrsToDict_nil : attrsToDict .nil = .nil := rfl

@[simp] theorem attrsToDict_cons (k : String) (a : SMAttr)
    (rest : SMAttrs) :
    attrsToDict (.cons k a rest) = .cons k (smGetDict a) (attrsToDict rest)
    := rfl

/-! ### The concrete message variants

Each Python subclass of `SocketMessage` builds a literal dict and hands it
to the family `__init__`; the dicts are reproduced here. -/

/-- Dict literal shorthand. -/
def pyD (l : List (String × PyVal)) : PyVal := .pyDict (pyFields l)

/-- List literal shorthand. -/
def pyL (l : List PyVal) : PyVal := .pyList (pyItems l)

/-- `ListRequest()`. -/
def ListRequestDict : PyVal := pyD [("type", .pyStr LIST)]

/-- `JoinRequest(meeting_id, username)`. -/
def JoinRequestDict (meeting_id : Int) (username : String) : PyVal :=
  pyD [("data", pyD [("meetingID", .pyInt meeting_id),
                             ("username", .pyStr username)]),
           ("type", .pyStr JOIN)]

/-- `CreateMeshRequest()`. -/
def CreateMeshRequestDict : PyVal :=
  pyD [("type", .pyStr CREATE), ("data", pyD [("meetingType", .pyStr MESH)])]

/-- `CreateStarRequest()`. -/
def CreateStarRequestDict : PyVal :=
  pyD [("type", .pyStr CREATE), ("data", pyD [("meetingType", .pyStr STAR)])]

/-- An `(addr, port)` pair as serialized by `json.dumps` (tuples become
JSON arrays). -/
def addrPortVal (addr : String) (port : Nat) : PyVal :=
  pyL [.pyStr addr, .pyInt port]

/-- `ListResponse(meeting_id_list)`: the data is the list of
`(meetingID, meetingType)` pairs. -/
def ListResponseDict (meeting_id_list : List (Int × String)) : PyVal :=
  pyD [("message", .pyStr ("\nMeetings found: " ++
              toString meeting_id_list.length ++ "\n")),
           ("type", .pyStr LIST),
           ("success", .pyBool true),
           ("data", pyL (meeting_id_list.map
              (fun p => pyL [.pyInt p.1, .pyStr p.2])))]

/-- `JoinStarSuccess(host_addr_port, username)`. -/
def JoinStarSuccessDict (host_addr : String) (host_port : Nat)
    (username : String) : PyVal :=
  pyD [("message", .pyStr "Join request successful! Preparing to join..."),
           ("type", .pyStr JOIN),
           ("success", .pyBool true),
           ("data", pyD [("host", addrPortVal host_addr host_port),
                             ("meetingType", .pyStr STAR),
                             ("username", .pyStr username)])]

/-- `JoinMeshSuccess(host_addr_port, username, listen_p2p_port)`. -/
def JoinMeshSuccessDict (host_addr : String) (host_port : Nat)
    (username : String) (listen_p2p_port : Nat) : PyVal :=
  pyD [("message", .pyStr "Join request successful! Preparing to join..."),
           ("type", .pyStr JOIN),
           ("success", .pyBool true),
           ("data", pyD [("host", addrPortVal host_addr host_port),
                             ("meetingType", .pyStr MESH),
                             ("username", .pyStr username),
                             ("listen_p2p_port", .pyInt listen_p2p_port)])]

/-- `JoinFailure(error_msg)`. -/
def JoinFailureDict (error_msg : String) : PyVal :=
  pyD [("message", .pyStr ("Join failed with error: '" ++ error_msg ++ "'")),
           ("type", .pyStr JOIN),
           ("success", .pyBool false),
           ("data", .pyNull)]

/-- `CreateStarSuccess(meetingID, listen_p2p_port)`. -/
def CreateStarSuccessDict (meetingID : Nat) (listen_p2p_port : Nat) : PyVal :=
  pyD [("message", .pyStr "Create request successful! Creating new meeting..."),
           ("type", .pyStr CREATE),
           ("success", .pyBool true),
           ("data", pyD [("meetingID", .pyInt meetingID),
                             ("meetingType", .pyStr STAR),
                             ("listen_p2p_port", .pyInt listen_p2p_port)])]

/-- `CreateMeshSuccess(meetingID, listen_p2p_port)`. -/
def CreateMeshSuccessDict (meetingID : Nat) (listen_p2p_port : Nat) : PyVal :=
  pyD [("message", .pyStr "Create request successful! Creating new meeting..."),
           ("type", .pyStr CREATE),
           ("success", .pyBool true),
           ("data", pyD [("meetingID", .pyInt meetingID),
                             ("meetingType", .pyStr MESH),
                             ("listen_p2p_port", .pyInt listen_p2p_port)])]

/-- `P2PText(message_str)`. -/
def P2PTextDict (message_str : String) : PyVal :=
  pyD [("message", .pyStr message_str), ("type", .pyStr P2P_TEXT)]

/-- `RegisterUsername(username)`. -/
def RegisterUsernameDict (username : String) : PyVal :=
  pyD [("type", .pyStr P2P_REGISTER_USERNAME),
           ("data", pyD [("username", .pyStr username)])]

/-- `RegisterPort(listen_p2p_port)`. -/
def RegisterPortDict (listen_p2p_port : Int) : PyVal :=
  pyD [("type", .pyStr P2P_REGISTER_PORT),
           ("data", pyD [("listen_p2p_port", .pyInt listen_p2p_port)])]

/-- `MeshConnect(addr_ports)` over an arbitrary list of serialized
peer addresses. -/
def MeshConnectDict (addr_ports : List PyVal) : PyVal :=
  pyD [("type", .pyStr P2P_MESH_CONNECT),
           ("data", pyD [("hosts", pyL addr_ports)])]

/-! ### central_server.py -/

/-- The tag distinguishing `StarMeetingEntry` from `MeshMeetingEntry`. -/
inductive MeetingKind where
  | star : MeetingKind
  | mesh : MeetingKind
deriving Repr, DecidableEq

/-- `MeetingEntry` (with its `StarMeetingEntry`/`MeshMeetingEntry` tag):
host address, the set of claimed usernames (seeded with `HOST_USERNAME`),
and the set of meeting ports. -/
structure MeetingEntry where
  host_addr : String
  host_port : Nat
  usernames : List String
  meeting_ports : List Nat
  meetingType : MeetingKind
deriving Repr

/-- `MeetingEntry.__init__` (as specialized by the star/mesh subclasses). -/
def MeetingEntry.init (addr : String) (port : Nat) (kind : MeetingKind) :
    MeetingEntry :=
  { host_addr := addr, host_port := port,
    usernames := [HOST_USERNAME], meeting_ports := [],
    meetingType := kind }

/-- `MeetingEntry.has_username`. -/
def MeetingEntry.has_username (e : MeetingEntry) (name : String) : Bool :=
  e.usernames.contains name

/-- `MeetingEntry.add_username` (set insertion). -/
def MeetingEntry.add_username (e : MeetingEntry) (name : String) :
    MeetingEntry :=
  if e.usernames.contains name then e
  else { e with usernames := e.usernames ++ [name] }

/-- The `Server` state: the `meetings` dict and the two counters.  Each
counter is guarded by its own lock in the source, so its read-increment is
atomic and is modelled as a sequential update. -/
structure Server where
  meetings : List (Int × MeetingEntry)
  uniqueMeetingID : Nat
  uniqueMeetingPort : Nat
deriving Repr

/-- `Server.__init__` (registry empty, counters at their start values). -/
def Server.init : Server :=
  { meetings := [], uniqueMeetingID := 0,
    uniqueMeetingPort := DEFAULT_P2P_PORT }

/-- `Server.new_meetingID`: hand out the counter value, then increment. -/
def Server.new_meetingID (s : Server) : Nat × Server :=
  (s.uniqueMeetingID, { s with uniqueMeetingID := s.uniqueMeetingID + 1 })

/-- `Server.new_meeting_port`: hand out the counter value, then
increment. -/
def Server.new_meeting_port (s : Server) : Nat × Server :=
  (s.uniqueMeetingPort, { s with uniqueMeetingPort := s.uniqueMeetingPort + 1 })

/-- `meetingID in self.meetings` / `self.meetings[meetingID]`. -/
def Server.findMeeting (s : Server) (meetingID : Int) : Option MeetingEntry :=
  (s.meetings.find? (fun kv => kv.1 = meetingID)).map (fun kv => kv.2)

/-- In-place mutation of the entry stored under a key of the dict. -/
def setMeeting (m : List (Int × MeetingEntry)) (meetingID : Int)
    (e : MeetingEntry) : List (Int × MeetingEntry) :=
  m.map (fun kv => if kv.1 = meetingID then (kv.1, e) else kv)

/-- The JOIN branch of `Server.handle_request`: look the meeting up,
reject a taken/reserved username, otherwise record the username and build
the star or mesh success response (allocating a fresh port for mesh). -/
def Server.handle_join (s : Server) (meetingID : Int) (username : String) :
    Server × PyVal :=
  match s.findMeeting meetingID with
  | none =>
      (s, JoinFailureDict ("Meeting ID '" ++ toString meetingID ++ "' not found."))
  | some meeting_entry =>
      if meeting_entry.has_username username ||
         username = HOST_USERNAME || username = DEFAULT_USERNAME then
        (s, JoinFailureDict
              ("Username '" ++ username ++ "' already taken. Please choose another."))
      else
        let entry' := meeting_entry.add_username username
        let s' := { s with meetings := setMeeting s.meetings meetingID entry' }
        match meeting_entry.meetingType with
        | .star =>
            (s', JoinStarSuccessDict meeting_entry.host_addr
                   meeting_entry.host_port username)
        | .mesh =>
            let (meeting_port, s'') := s'.new_meeting_port
            (s'', JoinMeshSuccessDict meeting_entry.host_addr
                    meeting_entry.host_port username meeting_port)

/-- The CREATE branch of `Server.handle_request`: allocate a meeting ID
and a p2p port, store the new entry keyed by the ID, and respond.
`requester_addr` is `addr_port[0]` of the requester's connection. -/
def Server.handle_create (s : Server) (meetingType : MeetingKind)
    (requester_addr : String) : Server × PyVal :=
  let (meetingID, s1) := s.new_meetingID
  let (p2p_port, s2) := s1.new_meeting_port
  match meetingType with
  | .star =>
      ({ s2 with meetings := s2.meetings ++
           [((meetingID : Int), MeetingEntry.init requester_addr p2p_port .star)] },
       CreateStarSuccessDict meetingID p2p_port)
  | .mesh =>
      ({ s2 with meetings := s2.meetings ++
           [((meetingID : Int), MeetingEntry.init requester_addr p2p_port .mesh)] },
       CreateMeshSuccessDict meetingID p2p_port)

/-- Read the `success` field of a response dict. -/
def respSuccess (v : PyVal) : Option PyVal :=
  match v with
  | .pyDict kvs => kvs.find? "success"
  | _ => none

/-! Helper lemmas about the registry dict. -/

theorem find_setMeeting (m : List (Int × MeetingEntry)) (mid : Int)
    (e' : MeetingEntry)
    (h : (m.find? (fun kv => kv.1 = mid)).isSome) :
    (setMeeting m mid e').find? (fun kv => kv.1 = mid) = some (mid, e') := by
  induction m with
  | nil => simp at h
  | cons kv rest ih =>
      by_cases hk : kv.1 = mid
      · simp [setMeeting, hk]
      · have h' : (rest.find? (fun kv => kv.1 = mid)).isSome := by
          simpa [List.find?_cons, hk] using h
        simpa [setMeeting, List.find?_cons, hk] using ih h'

theorem findMeeting_set (s : Server) (mid : Int) (e e' : MeetingEntry)
    (h : s.findMeeting mid = some e) :
    Server.findMeeting { s with meetings := setMeeting s.meetings mid e' } mid
      = some e' := by
  unfold Server.findMeeting at *
  have hsome : (s.meetings.find? (fun kv => kv.1 = mid)).isSome := by
    rcases hfind : s.meetings.find? (fun kv => kv.1 = mid) with _ | kv
    · rw [hfind] at h; simp at h
    · rw [hfind]; rfl
  rw [find_setMeeting s.meetings mid e' hsome]
  rfl

theorem add_username_mem (e : MeetingEntry) (u : String) :
    u ∈ (e.add_username u).usernames := by
  unfold MeetingEntry.add_username
  split
  · next h => simpa using h
  · simp

theorem add_username_has (e : MeetingEntry) (u : String) :
    (e.add_username u).has_username u = true := by
  unfold MeetingEntry.has_username
  simpa using add_username_mem e u

/-- Claim C1: JOIN handling.  If the requested `meetingID` is not a key of
the registry, the response is a `JoinFailure` (`success = false`) and the
registry is unchanged.  Otherwise, if the requested username is already
claimed, or equals the reserved host name or the default sentinel, the
response is a `JoinFailure` and the registry is unchanged.  Otherwise the
username is permanently added to the entry's claimed set and a success
response is returned: for a star meeting it carries the host address/port
and the username; for a mesh meeting additionally a freshly allocated port
from the shared port counter.  In particular a second JOIN with the same
username in the same room returns `success = false` and leaves the state
unchanged. -/
theorem claim_C1 (s : Server) (mid : Int) (user : String) :
    (s.findMeeting mid = none →
       (s.handle_join mid user).1 = s ∧
       (s.handle_join mid user).2 =
         JoinFailureDict ("Meeting ID '" ++ toString mid ++ "' not found.") ∧
       respSuccess (s.handle_join mid user).2 = some (.pyBool false)) ∧
    (∀ e, s.findMeeting mid = some e →
       ((e.has_username user || user = HOST_USERNAME ||
           user = DEFAULT_USERNAME) = true →
          (s.handle_join mid user).1 = s ∧
          respSuccess (s.handle_join mid user).2 = some (.pyBool false)) ∧
       ((e.has_username user || user = HOST_USERNAME ||
           user = DEFAULT_USERNAME) = false →
          ((s.handle_join mid user).1).findMeeting mid =
              some (e.add_username user) ∧
          user ∈ (e.add_username user).usernames ∧
          respSuccess (s.handle_join mid user).2 = some (.pyBool true) ∧
          (e.meetingType = .star →
             (s.handle_join mid user).2 =
               JoinStarSuccessDict e.host_addr e.host_port user ∧
             (s.handle_join mid user).1 =
               { s with meetings :=
                   setMeeting s.meetings mid (e.add_username user) }) ∧
          (e.meetingType = .mesh →
             (s.handle_join mid user).2 =
               JoinMeshSuccessDict e.host_addr e.host_port user
                 s.uniqueMeetingPort ∧
             ((s.handle_join mid user).1).uniqueMeetingPort =
               s.uniqueMeetingPort + 1) ∧
          (((s.handle_join mid user).1.handle_join mid user).1 =
               (s.handle_join mid user).1 ∧
           respSuccess ((s.handle_join mid user).1.handle_join mid user).2 =
               some (.pyBool false)))) := by
  constructor
  · intro hnone
    simp [Server.handle_join, hnone, JoinFailureDict, respSuccess, pyD,
          pyFields, PyKVs.find?]
  · intro e he
    constructor
    · intro htaken
      simp [Server.handle_join, he, htaken, JoinFailureDict, respSuccess,
            pyD, pyFields, PyKVs.find?]
    · intro hfree
      have hfind' :
          ((s.handle_join mid user).1).findMeeting mid =
            some (e.add_username user) := by
        cases hty : e.meetingType <;>
          simp [Server.handle_join, he, hfree, hty, Server.new_meeting_port] <;>
          exact findMeeting_set s mid e (e.add_username user) he
      refine ⟨hfind', add_username_mem e user, ?_, ?_, ?_, ?_⟩
      · cases hty : e.meetingType <;>
          simp [Server.handle_join, he, hfree, hty, Server.new_meeting_port,
                JoinStarSuccessDict, JoinMeshSuccessDict, respSuccess, pyD,
                pyFields, PyKVs.find?]
      · intro hty
        simp [Server.handle_join, he, hfree, hty]
      · intro hty
        simp [Server.handle_join, he, hfree, hty, Server.new_meeting_port]
      · have htaken' :
            ((e.add_username user).has_username user ||
               user = HOST_USERNAME || user = DEFAULT_USERNAME) = true := by
          simp [add_username_has]
        set s₁ := (s.handle_join mid user).1 with hs1
        clear hs1
        constructor
        · simp [Server.handle_join, hfind', htaken']
        · simp [Server.handle_join, hfind', htaken', JoinFailureDict,
                respSuccess, pyD, pyFields, PyKVs.find?]

/-- A concrete directory state used to instantiate C1: one star meeting
with ID 0 hosted at ("1.2.3.4", 3100). -/
def serverEx : Server :=
  { meetings := [((0 : Int), MeetingEntry.init "1.2.3.4" 3100 .star)],
    uniqueMeetingID := 1, uniqueMeetingPort := 3101 }

/-- Witness for C1: at the concrete state `serverEx`, a JOIN for the absent
ID 99 fails and leaves the registry unchanged; a JOIN for meeting 0 with
the fresh username "alice" succeeds; repeating it fails. -/
theorem claim_C1_witness :
    (Server.handle_join serverEx 99 "alice").1 = serverEx ∧
    respSuccess (Server.handle_join serverEx 99 "alice").2 =
      some (.pyBool false) ∧
    respSuccess (Server.handle_join serverEx 0 "alice").2 =
      some (.pyBool true) ∧
    respSuccess
        ((Server.handle_join serverEx 0 "alice").1.handle_join 0 "alice").2 =
      some (.pyBool false) := by
  have h1 := claim_C1 serverEx 99 "alice"
  have h2 := claim_C1 serverEx 0 "alice"
  have hnone : serverEx.findMeeting 99 = none := by
    simp [serverEx, Server.findMeeting]
  have hsome : serverEx.findMeeting 0 =
      some (MeetingEntry.init "1.2.3.4" 3100 .star) := by
    simp [serverEx, Server.findMeeting]
  have hfree :
      ((MeetingEntry.init "1.2.3.4" 3100 .star).has_username "alice" ||
        "alice" = HOST_USERNAME || "alice" = DEFAULT_USERNAME) = false := by
    simp [MeetingEntry.init, MeetingEntry.has_username, HOST_USERNAME,
          DEFAULT_USERNAME]
  refine ⟨(h1.1 hnone).1, (h1.1 hnone).2.2, ?_, ?_⟩
  · exact ((h2.2 _ hsome).2 hfree).2.2.1
  · exact ((h2.2 _ hsome).2 hfree).2.2.2.2.2.2

/-! ### C2: uniqueness of allocated meeting IDs and ports

The two counters are each read-modify-written under a dedicated lock, so
any interleaving of concurrent CREATE/JOIN handlers is some sequential
order of the individual allocations.  A run of the directory is modelled
as a list of requests; the values handed out during an operation are
exactly the counter values it passes over. -/

/-- One directory request (the operations that can touch the counters). -/
inductive DirOp where
  | create (kind : MeetingKind) (requester_addr : String) : DirOp
  | join (meetingID : Int) (username : String) : DirOp

/-- State reached after handling one request. -/
def Server.runOp (s : Server) (op : DirOp) : Server :=
  match op with
  | .create k a => (s.handle_create k a).1
  | .join mid u => (s.handle_join mid u).1

/-- The meeting IDs returned by `new_meetingID` while handling `op`
(every allocation hands out the current counter value and bumps it by
one, so the handed-out values are the counter values passed over). -/
def opIDs (s : Server) (op : DirOp) : List Nat :=
  List.range' s.uniqueMeetingID
    ((s.runOp op).uniqueMeetingID - s.uniqueMeetingID)

/-- The ports returned by `new_meeting_port` while handling `op`. -/
def opPorts (s : Server) (op : DirOp) : List Nat :=
  List.range' s.uniqueMeetingPort
    ((s.runOp op).uniqueMeetingPort - s.uniqueMeetingPort)

/-- All meeting IDs handed out over a run of the directory. -/
def runIDs (s : Server) : List DirOp → List Nat
  | [] => []
  | op :: rest => opIDs s op ++ runIDs (s.runOp op) rest

/-- All ports handed out over a run of the directory. -/
def runPorts (s : Server) : List DirOp → List Nat
  | [] => []
  | op :: rest => opPorts s op ++ runPorts (s.runOp op) rest

theorem runOp_id_mono (s : Server) (op : DirOp) :
    s.uniqueMeetingID ≤ (s.runOp op).uniqueMeetingID := by
  cases op with
  | create k a => cases k <;> simp [Server.runOp, Server.handle_create,
      Server.new_meetingID, Server.new_meeting_port]
  | join mid u =>
      unfold Server.runOp Server.handle_join
      rcases h : s.findMeeting mid with _ | e
      · simp [h]
      · simp only [h]
        split
        · simp
        · split
          all_goals simp [Server.new_meeting_port]

theorem runOp_port_mono (s : Server) (op : DirOp) :
    s.uniqueMeetingPort ≤ (s.runOp op).uniqueMeetingPort := by
  cases op with
  | create k a => cases k <;> simp [Server.runOp, Server.handle_create,
      Server.new_meetingID, Server.new_meeting_port]
  | join mid u =>
      unfold Server.runOp Server.handle_join
      rcases h : s.findMeeting mid with _ | e
      · simp [h]
      · simp only [h]
        split
        · simp
        · split
          all_goals simp [Server.new_meeting_port]

theorem runIDs_lb (s : Server) (ops : List DirOp) :
    ∀ x ∈ runIDs s ops, s.uniqueMeetingID ≤ x := by
  induction ops generalizing s with
  | nil => simp [runIDs]
  | cons op rest ih =>
      intro x hx
      rcases List.mem_append.1 (by simpa [runIDs] using hx) with h | h
      · exact (List.mem_range'_1.1 (by simpa [opIDs] using h)).1
      · exact le_trans (runOp_id_mono s op) (ih (s.runOp op) x h)

theorem runPorts_lb (s : Server) (ops : List DirOp) :
    ∀ x ∈ runPorts s ops, s.uniqueMeetingPort ≤ x := by
  induction ops generalizing s with
  | nil => simp [runPorts]
  | cons op rest ih =>
      intro x hx
      rcases List.mem_append.1 (by simpa [runPorts] using hx) with h | h
      · exact (List.mem_range'_1.1 (by simpa [opPorts] using h)).1
      · exact le_trans (runOp_port_mono s op) (ih (s.runOp op) x h)

theorem runIDs_sorted (s : Server) (ops : List DirOp) :
    (runIDs s ops).Pairwise (· < ·) := by
  induction ops generalizing s with
  | nil => simp [runIDs]
  | cons op rest ih =>
      rw [runIDs, List.pairwise_append]
      refine ⟨by simpa [opIDs] using List.pairwise_lt_range' _ _, ih _, ?_⟩
      intro x hx y hy
      have hx' := (List.mem_range'_1.1 (by simpa [opIDs] using hx)).2
      have hy' := runIDs_lb (s.runOp op) rest y hy
      have : x < (s.runOp op).uniqueMeetingID := by
        have := runOp_id_mono s op
        omega
      omega

theorem runPorts_sorted (s : Server) (ops : List DirOp) :
    (runPorts s ops).Pairwise (· < ·) := by
  induction ops generalizing s with
  | nil => simp [runPorts]
  | cons op rest ih =>
      rw [runPorts, List.pairwise_append]
      refine ⟨by simpa [opPorts] using List.pairwise_lt_range' _ _, ih _, ?_⟩
      intro x hx y hy
      have hx' := (List.mem_range'_1.1 (by simpa [opPorts] using hx)).2
      have hy' := runPorts_lb (s.runOp op) rest y hy
      have : x < (s.runOp op).uniqueMeetingPort := by
        have := runOp_port_mono s op
        omega
      omega

/-- Claim C2: the allocators only ever increase their counters and never
hand a value out twice: `new_meetingID` returns the current counter and
bumps it; over any run of CREATE/JOIN requests (any lock-serialized
interleaving), the handed-out meeting IDs are strictly increasing and
pairwise distinct, and likewise the handed-out ports; CREATE responds
with exactly the freshly allocated ID and port. -/
theorem claim_C2 (s : Server) (ops : List DirOp) :
    ((s.new_meetingID).1 = s.uniqueMeetingID ∧
     (s.new_meetingID).2.uniqueMeetingID = s.uniqueMeetingID + 1 ∧
     (s.new_meeting_port).1 = s.uniqueMeetingPort ∧
     (s.new_meeting_port).2.uniqueMeetingPort = s.uniqueMeetingPort + 1) ∧
    ((∀ a, (s.handle_create .star a).2 =
        CreateStarSuccessDict s.uniqueMeetingID s.uniqueMeetingPort) ∧
     (∀ a, (s.handle_create .mesh a).2 =
        CreateMeshSuccessDict s.uniqueMeetingID s.uniqueMeetingPort)) ∧
    (runIDs s ops).Pairwise (· < ·) ∧
    (runIDs s ops).Pairwise (· ≠ ·) ∧
    (runPorts s ops).Pairwise (· < ·) ∧
    (runPorts s ops).Pairwise (· ≠ ·) := by
  refine ⟨⟨rfl, rfl, rfl, rfl⟩, ⟨fun a => rfl, fun a => rfl⟩, ?_, ?_, ?_, ?_⟩
  · exact runIDs_sorted s ops
  · exact (runIDs_sorted s ops).imp Nat.ne_of_lt
  · exact runPorts_sorted s ops
  · exact (runPorts_sorted s ops).imp Nat.ne_of_lt

/-! ### socket_util.py : ListenThread.listen_and_do

The receive loop is driven by the outside world: what `recv` returns (or
raises), whether the stop flag was observed at the top of an iteration,
and whether the idle timer had expired when `time_exceeded()` ran.  A run
of the loop is modelled as a function from that trace of events to the
ordered list of observable actions the loop performs, together with the
way the loop ended. -/

/-- What one successful `conn_socket.recv(1024)` produced. -/
inductive RecvData where
  | empty : RecvData                -- b'' (remote closed)
  | undecodable : RecvData          -- bytes on which .decode() raises
  | text (s : String) : RecvData    -- bytes decoding to this string
deriving Repr

/-- One iteration's worth of external events. -/
inductive LEvent where
  | stopFlag : LEvent               -- keep_alive observed False at loop top
  | recvErr : LEvent                -- recv raised an exception
  | recv (d : RecvData) (timeUp : Bool) : LEvent
deriving Repr

/-- The observable actions of the loop, in order. -/
inductive LAction where
  | closedSocket : LAction          -- safe_shutdown_close(self.conn_socket)
  | calledOnClose : LAction         -- self.on_close()
  | handledMsg (m : SMAttr) : LAction
  | loggedInvalid (m : SMAttr) : LAction
  | loggedHandlerError : LAction    -- handler raised; caught and logged
  | raisedOut (e : PyErr) : LAction -- exception escaped listen_and_do

/-- How the loop ended. -/
inductive ExitPath where
  | blockedOnRecv : ExitPath        -- trace exhausted, loop still blocked
  | stopFlagExit : ExitPath
  | timeoutExit : ExitPath
  | recvErrorExit : ExitPath
  | emptyReadExit : ExitPath
  | exceptionExit (e : PyErr) : ExitPath
deriving Repr

/-- A message family as configured on a `ListenThread`: the `MessageType`
constructor, its `is_valid`, and whether the handler raises on a given
message (handler exceptions are caught per frame). -/
structure MsgFamily where
  ctor : PyVal → Except PyErr SMAttr
  valid : SMAttr → Except PyErr Bool
  handlerRaises : SMAttr → Bool

/-- The directory's listener configuration (`MeetingRequest` family, a
handler that does not raise). -/
def requestFamily : MsgFamily :=
  { ctor := MeetingRequestInit, valid := MeetingRequestIsValid,
    handlerRaises := fun _ => false }

/-- Python `str.split(delim)` for a one-character delimiter. -/
def splitOnChar (delim : Char) (cs : List Char) : List (List Char) :=
  match cs with
  | [] => [[]]
  | c :: rest =>
      let r := splitOnChar delim rest
      if c = delim then [] :: r
      else
        match r with
        | h :: t => (c :: h) :: t
        | [] => [[c]]

/-- `message_str.split(MSG_DELIM)`. -/
def splitFrames (s : String) : List String :=
  (splitOnChar ';' s.toList).map (fun cs => String.mk cs)

/-- Processing of one piece of a received chunk: empty strings and
unparsable pieces are skipped; otherwise the `MessageType` constructor and
`is_valid` run un-protected (their exceptions propagate), an invalid
message is logged and dropped, and a valid one goes to the handler, whose
exceptions are caught and logged. -/
def processFrame (fam : MsgFamily) (piece : String) :
    Except PyErr (List LAction) :=
  if piece = "" then .ok []
  else
    match json_loads piece with
    | none => .ok []
    | some v =>
        match fam.ctor v with
        | .error e => .error e
        | .ok m =>
            match fam.valid m with
            | .error e => .error e
            | .ok false => .ok [.loggedInvalid m]
            | .ok true =>
                if fam.handlerRaises m then .ok [.loggedHandlerError]
                else .ok [.handledMsg m]

/-- Process the pieces of one chunk in order; an escaping exception stops
the iteration (actions of earlier pieces stand). -/
def processFrames (fam : MsgFamily) : List String → List LAction × Option PyErr
  | [] => ([], none)
  | p :: ps =>
      match processFrame fam p with
      | .error e => ([], some e)
      | .ok acts =>
          let r := processFrames fam ps
          (acts ++ r.1, r.2)

/-- `ListenThread.listen_and_do` over an event trace: per iteration, check
the stop flag, `recv` (which may raise or return empty), check the idle
timer, decode, split on the delimiter and process each piece.  On
stop-flag or timer exit the loop breaks, shuts the socket down and runs
`on_close`; on a recv exception or an empty read it runs `on_close` and
returns without touching the socket; an exception escaping frame
processing propagates with neither. -/
def listen_loop (fam : MsgFamily) : List LEvent → List LAction × ExitPath
  | [] => ([], .blockedOnRecv)
  | .stopFlag :: _ => ([.closedSocket, .calledOnClose], .stopFlagExit)
  | .recvErr :: _ => ([.calledOnClose], .recvErrorExit)
  | .recv d timeUp :: rest =>
      if timeUp then ([.closedSocket, .calledOnClose], .timeoutExit)
      else
        match d with
        | .empty => ([.calledOnClose], .emptyReadExit)
        | .undecodable => listen_loop fam rest
        | .text s =>
            let pr := processFrames fam (splitFrames s)
            match pr.2 with
            | some e => (pr.1 ++ [.raisedOut e], .exceptionExit e)
            | none =>
                let r := listen_loop fam rest
                (pr.1 ++ r.1, r.2)

/-- The action trace of `listen_and_do`. -/
def listen_and_do (fam : MsgFamily) (events : List LEvent) : List LAction :=
  (listen_loop fam events).1

/-- Exit-related actions (socket close, close callback, escaping
exception). -/
def isExitAction : LAction → Bool
  | .closedSocket => true
  | .calledOnClose => true
  | .raisedOut _ => true
  | _ => false

theorem processFrame_no_exit (fam : MsgFamily) (p : String)
    (acts : List LAction) (h : processFrame fam p = .ok acts) :
    acts.all (fun a => !(isExitAction a)) = true := by
  unfold processFrame at h
  split at h
  · cases h; rfl
  · split at h
    · cases h; rfl
    · split at h
      · cases h
      · split at h
        · cases h
        · cases h; rfl
        · split at h <;> cases h <;> rfl

theorem processFrames_no_exit (fam : MsgFamily) (ps : List String) :
    ((processFrames fam ps).1).all (fun a => !(isExitAction a)) = true := by
  induction ps with
  | nil => rfl
  | cons p rest ih =>
      unfold processFrames
      rcases hpf : processFrame fam p with e | acts
      · rfl
      · simpa [List.all_append, processFrame_no_exit fam p acts hpf] using ih

/-- Claim C3 (as stated) is refuted by this input: the frame `"{}"` parses
as JSON, but `MeetingRequest.is_valid` reads `self.type`, which is absent,
so an `AttributeError` escapes the receive loop, terminating it without
closing the socket and without firing the close callback. -/
theorem claim_C3_counterexample :
    listen_loop requestFamily [.recv (.text "\x7b\x7d") false] =
      ([.raisedOut .attributeError], .exceptionExit .attributeError) := rfl

/-- Claim C3, amended: a received frame that parses as JSON and on which
the family's validity check itself evaluates (to false) is logged,
dropped, and the loop and connection continue unharmed; but a JSON frame
on which the constructor or `is_valid` raises (for example an object
missing the `type` field) escapes the loop — see the counterexample. -/
theorem claim_C3 (fam : MsgFamily) (s : String) (v : PyVal) (m : SMAttr)
    (rest : List LEvent)
    (hsplit : splitFrames s = [s])
    (hJson : json_loads s = some v)
    (hCtor : fam.ctor v = .ok m)
    (hValid : fam.valid m = .ok false) :
    listen_loop fam (.recv (.text s) false :: rest) =
      (.loggedInvalid m :: (listen_loop fam rest).1,
       (listen_loop fam rest).2) := by
  have hne : ¬(s = "") := by
    intro h
    rw [h] at hJson
    rw [show json_loads "" = none from rfl] at hJson
    cases hJson
  simp [listen_loop, hsplit, processFrames, processFrame, hne, hJson,
        hCtor, hValid]

/-- Witness for C3 (amended): the schema-invalid frame
`{"type": "bogus"}` is logged and dropped and the loop keeps running. -/
theorem claim_C3_witness :
    listen_loop requestFamily
        [.recv (.text "\x7b\"type\": \"bogus\"\x7d") false] =
      ([.loggedInvalid (.sub REQUEST_FIELDS
          (.cons "type" (.val (.pyStr "bogus")) .nil))], .blockedOnRecv) := by
  have h := claim_C3 requestFamily "\x7b\"type\": \"bogus\"\x7d"
      (pyD [("type", .pyStr "bogus")])
      (.sub REQUEST_FIELDS (.cons "type" (.val (.pyStr "bogus")) .nil)) []
      (by rfl) (by rfl) (by rfl) (by rfl)
  simpa [listen_loop] using h

/-- Claim C6 (as stated) is refuted by this input: on an empty read
(remote close) the loop runs the close callback and returns without
shutting down or closing the socket. -/
theorem claim_C6_counterexample :
    listen_and_do requestFamily [.recv .empty false] = [.calledOnClose] ∧
    .closedSocket ∉ listen_and_do requestFamily [.recv .empty false] := by
  constructor
  · rfl
  · intro hmem
    rw [show listen_and_do requestFamily [.recv .empty false] =
          [.calledOnClose] from rfl] at hmem
    simp at hmem

/-- Claim C6, amended: on the stop-flag and idle-timeout exits the loop
shuts down and closes the socket exactly once and then fires the close
callback exactly once; on the receive-error and empty-read exits the
close callback fires exactly once but the loop does not close the socket;
an exception escaping frame processing terminates the loop with neither;
mid-loop actions never close the socket or fire the callback. -/
theorem claim_C6 (fam : MsgFamily) (events : List LEvent) :
    ∃ pre : List LAction,
      pre.all (fun a => !(isExitAction a)) = true ∧
      (match (listen_loop fam events).2 with
       | .blockedOnRecv => (listen_loop fam events).1 = pre
       | .stopFlagExit =>
           (listen_loop fam events).1 = pre ++ [.closedSocket, .calledOnClose]
       | .timeoutExit =>
           (listen_loop fam events).1 = pre ++ [.closedSocket, .calledOnClose]
       | .recvErrorExit =>
           (listen_loop fam events).1 = pre ++ [.calledOnClose]
       | .emptyReadExit =>
           (listen_loop fam events).1 = pre ++ [.calledOnClose]
       | .exceptionExit e =>
           (listen_loop fam events).1 = pre ++ [.raisedOut e]) := by
  induction events with
  | nil => exact ⟨[], rfl, rfl⟩
  | cons ev rest ih =>
      cases ev with
      | stopFlag => exact ⟨[], rfl, rfl⟩
      | recvErr => exact ⟨[], rfl, rfl⟩
      | recv d timeUp =>
          cases timeUp with
          | true => exact ⟨[], rfl, by simp [listen_loop]⟩
          | false =>
              cases d with
              | empty => exact ⟨[], rfl, by simp [listen_loop]⟩
              | undecodable =>
                  obtain ⟨pre, hpre, hm⟩ := ih
                  exact ⟨pre, hpre, by simpa [listen_loop] using hm⟩
              | text s =>
                  rcases herr : (processFrames fam (splitFrames s)).2 with
                      _ | e
                  · obtain ⟨pre, hpre, hm⟩ := ih
                    refine ⟨(processFrames fam (splitFrames s)).1 ++ pre,
                        ?_, ?_⟩
                    · simp [List.all_append, hpre,
                            processFrames_no_exit fam (splitFrames s)]
                    · simp only [listen_loop, herr]
                      rcases hexit : (listen_loop fam rest).2 <;>
                        simp only [hexit] at hm <;>
                        simp [hm, List.append_assoc]
                  · exact ⟨(processFrames fam (splitFrames s)).1,
                        processFrames_no_exit fam (splitFrames s),
                        by simp [listen_loop, herr]⟩

/-! ### p2p_nodes.py : PeerInfo and HostNode -/

/-- A peer's `(addr, port)` connection identity. -/
abbrev AddrPort := String × Nat

/-- The value held in `PeerInfo.listen_p2p_port`: `add_new_peer`
initializes it with the peer's `(addr, port)` tuple, and
`set_p2p_port` overwrites it with the registered integer port. -/
inductive ListenPortVal where
  | tupleVal (a : AddrPort) : ListenPortVal
  | intVal (n : Int) : ListenPortVal
deriving Repr, DecidableEq

/-- Python truthiness of the stored value: a (non-empty) tuple is truthy,
an int is truthy iff non-zero. -/
def ListenPortVal.truthy : ListenPortVal → Bool
  | .tupleVal _ => true
  | .intVal n => n != 0

/-- `PeerInfo` (the socket and listener handle are tracked through
effects; the remaining fields are the application data). -/
structure PeerInfo where
  user_warnings : Nat
  username : String
  listen_p2p_port : ListenPortVal
deriving Repr, DecidableEq

/-- `HostNode` state (the peer dict is insertion-ordered). -/
structure HostNode where
  username : String
  meetingID : Int
  peers : List (AddrPort × PeerInfo)
  listen_p2p_port : Nat
deriving Repr, DecidableEq

/-- Observable side effects of node operations, in order. -/
inductive PEffect where
  | sentMsg (dst : AddrPort) (payload : PyVal) : PEffect
  | stoppedThread (a : AddrPort) : PEffect
  | closedConn (a : AddrPort) : PEffect
  | loggedError (s : String) : PEffect

/-- `addr_port in self.peers`. -/
def peersContains (ps : List (AddrPort × PeerInfo)) (a : AddrPort) : Bool :=
  ps.any (fun kv => kv.1 = a)

/-- `self.peers[addr_port]`. -/
def peersGet (ps : List (AddrPort × PeerInfo)) (a : AddrPort) :
    Option PeerInfo :=
  (ps.find? (fun kv => kv.1 = a)).map (fun kv => kv.2)

/-- Mutate the entry stored under a key. -/
def peersSet (ps : List (AddrPort × PeerInfo)) (a : AddrPort) (p : PeerInfo) :
    List (AddrPort × PeerInfo) :=
  ps.map (fun kv => if kv.1 = a then (kv.1, p) else kv)

/-- `del self.peers[addr_port]`. -/
def peersDel (ps : List (AddrPort × PeerInfo)) (a : AddrPort) :
    List (AddrPort × PeerInfo) :=
  ps.filter (fun kv => !(kv.1 = a : Bool))

/-- `HostNode.unknown_peer_error(addr_port, msg)` (the two-argument call,
as used by every table operation except `get_username`). -/
def unknown_peer_error (addr_port : AddrPort) (msg : String) : PEffect :=
  .loggedError ("Error: Unknown peer - ('" ++ addr_port.1 ++ "', " ++
    toString addr_port.2 ++ ") - " ++ msg)

/-- `HostNode.add_new_peer`: refuse a duplicate connection, otherwise
store a fresh `PeerInfo` whose `listen_p2p_port` is the `(addr, port)`
tuple and start its listener. -/
def HostNode.add_new_peer (st : HostNode) (addr_port : AddrPort)
    (username : String) : HostNode × List PEffect :=
  if peersContains st.peers addr_port then
    (st, [.loggedError ("Error: Already have peer connection with ('" ++
        addr_port.1 ++ "', " ++ toString addr_port.2 ++ ")")])
  else
    ({ st with peers := st.peers ++
        [(addr_port, { user_warnings := 0, username := username,
                       listen_p2p_port := .tupleVal addr_port })] }, [])

/-- `HostNode.set_p2p_port`. -/
def HostNode.set_p2p_port (st : HostNode) (addr_port : AddrPort)
    (listen_p2p_port : Int) : HostNode × List PEffect :=
  match peersGet st.peers addr_port with
  | some p =>
      let p' := { p with listen_p2p_port := ListenPortVal.intVal listen_p2p_port }
      ({ st with peers := peersSet st.peers addr_port p' }, [])
  | none => (st, [unknown_peer_error addr_port "for set_p2p_port"])

/-- `HostNode.set_username`. -/
def HostNode.set_username (st : HostNode) (addr_port : AddrPort)
    (user_str : String) : HostNode × List PEffect :=
  match peersGet st.peers addr_port with
  | some p =>
      let p' := { p with username := user_str }
      ({ st with peers := peersSet st.peers addr_port p' }, [])
  | none => (st, [unknown_peer_error addr_port "for set_username"])

/-- `HostNode.get_username`: for a known peer return its username; for an
unknown peer the source calls `self.unknown_peer_error(addr_port)` with
its required `msg` argument missing, which raises `TypeError`. -/
def HostNode.get_username (st : HostNode) (addr_port : AddrPort) :
    Except PyErr String :=
  match peersGet st.peers addr_port with
  | some p => .ok p.username
  | none => .error .typeError

/-- `HostNode.give_warning`. -/
def HostNode.give_warning (st : HostNode) (addr_port : AddrPort) :
    HostNode × List PEffect :=
  match peersGet st.peers addr_port with
  | some p =>
      let p' := { p with user_warnings := p.user_warnings + 1 }
      ({ st with peers := peersSet st.peers addr_port p' }, [])
  | none => (st, [unknown_peer_error addr_port "for give_warning"])

/-- `HostNode.get_user_warnings`: the stored count, or 0 (after logging)
for an unknown peer. -/
def HostNode.get_user_warnings (st : HostNode) (addr_port : AddrPort) :
    Nat × List PEffect :=
  match peersGet st.peers addr_port with
  | some p => (p.user_warnings, [])
  | none => (0, [unknown_peer_error addr_port "for get_user_warnings"])

/-- `HostNode.remove_user`: stop the peer's listener, close its socket and
drop its entry; log-and-no-op for an unknown peer. -/
def HostNode.remove_user (st : HostNode) (addr_port : AddrPort) :
    HostNode × List PEffect :=
  if peersContains st.peers addr_port then
    ({ st with peers := peersDel st.peers addr_port },
     [.stoppedThread addr_port, .closedConn addr_port])
  else
    (st, [unknown_peer_error addr_port "for remove_user"])

/-- `HostNode.direct_message`: a locally constructed `P2PText` always
passes its own `is_valid` (its `type` is the module constant and its
message a `str`), so a known peer is sent the encoded message; an unknown
peer is logged. -/
def HostNode.direct_message (st : HostNode) (addr_port : AddrPort)
    (msg_str : String) : List PEffect :=
  if peersContains st.peers addr_port then
    [.sentMsg addr_port (P2PTextDict msg_str)]
  else
    [unknown_peer_error addr_port "for direct_message"]

/-- `HostNode.broadcast_message`: `direct_message` to every known peer in
table order. -/
def HostNode.broadcast_message (st : HostNode) (msg_str : String) :
    List PEffect :=
  (st.peers.map (fun kv => st.direct_message kv.1 msg_str)).foldr
    (fun a b => a ++ b) []

/-- `HostNode.welcome_message`. -/
def HostNode.welcome_message (st : HostNode) : String :=
  "You are connected to host of meeting " ++ toString st.meetingID ++ "."

/-- `StarHostNode.handle_question`: log the question (this reads the
sender's username), broadcast a clean question, otherwise record a
warning, send it, and kick the sender when the count reaches
`MAX_WARNINGS`. -/
def StarHostNode.handle_question (st : HostNode) (addr_port : AddrPort)
    (question_str : String) : Except PyErr (HostNode × List PEffect) := do
  let _uname ← st.get_username addr_port  -- logging.info(...)
  if BAD_WORDS.all (fun bw => !(strContains question_str bw)) then
    let uname ← st.get_username addr_port
    .ok (st, st.broadcast_message
          ("Question from " ++ uname ++ ": '" ++ question_str ++ "'"))
  else
    let (st1, ef1) := st.give_warning addr_port
    let (w1, efw1) := st1.get_user_warnings addr_port
    let ef2 := st1.direct_message addr_port
        ("This is warning number " ++ toString w1 ++ ".")
    let (w2, efw2) := st1.get_user_warnings addr_port
    if w2 == MAX_WARNINGS then
      let ef3 := st1.direct_message addr_port "\nGoodbye."
      let (st2, ef4) := st1.remove_user addr_port
      .ok (st2, ef1 ++ efw1 ++ ef2 ++ efw2 ++ ef3 ++ ef4)
    else
      .ok (st1, ef1 ++ efw1 ++ ef2 ++ efw2)

/-- A `listen_p2p_port` field value as serialized into a MESH_CONNECT
payload (tuples become JSON arrays). -/
def portValPy : ListenPortVal → PyVal
  | .intVal n => .pyInt n
  | .tupleVal a => pyL [.pyStr a.1, .pyInt a.2]

/-- The `other_peer_addr_ports` list built by
`MeshHostNode.wait_for_connections`: every peer whose
`listen_p2p_port` field is truthy contributes
`(addr_prt[0], peer_obj.listen_p2p_port)`. -/
def mesh_payload (peers : List (AddrPort × PeerInfo)) :
    List (String × ListenPortVal) :=
  peers.filterMap (fun kv =>
    if kv.2.listen_p2p_port.truthy then some (kv.1.1, kv.2.listen_p2p_port)
    else none)

/-- Serialize a payload list into the JSON value sent in MESH_CONNECT. -/
def payloadPy (l : List (String × ListenPortVal)) : List PyVal :=
  l.map (fun p => pyL [.pyStr p.1, portValPy p.2])

/-- The per-accept body of `MeshHostNode.wait_for_connections`: announce
the reserved host username and a welcome, compute the payload from the
current peer table, register the new peer, then send MESH_CONNECT. -/
def MeshHostNode.accept_one (st : HostNode) (addr_port : AddrPort) :
    HostNode × List PEffect :=
  let other_peer_addr_ports := mesh_payload st.peers
  let (st', ef) := st.add_new_peer addr_port DEFAULT_USERNAME
  (st', [.sentMsg addr_port (RegisterUsernameDict HOST_USERNAME),
         .sentMsg addr_port (P2PTextDict st.welcome_message)] ++ ef ++
        [.sentMsg addr_port (MeshConnectDict
            (payloadPy other_peer_addr_ports))])

/-- The per-accept body of `HostNode.wait_for_connections` (used by star
hosts and, by inheritance, by mesh audience nodes): announce the node's
username and a welcome and register the peer — no MESH_CONNECT. -/
def HostNode.accept_one (st : HostNode) (addr_port : AddrPort) :
    HostNode × List PEffect :=
  let (st', ef) := st.add_new_peer addr_port DEFAULT_USERNAME
  (st', [.sentMsg addr_port (RegisterUsernameDict st.username),
         .sentMsg addr_port (P2PTextDict st.welcome_message)] ++ ef)

/-- Is `"type"` mapped to `p2p_mesh_connect` in these dict items? -/
def kvsTypeIsMeshConnect : PyKVs → Bool
  | .nil => false
  | .cons k v t =>
      (k = "type" &&
        (match v with
         | .pyStr ty => ty = P2P_MESH_CONNECT
         | _ => false)) || kvsTypeIsMeshConnect t

/-- Does an effect send a `p2p_mesh_connect` message? -/
def isMeshConnectMsg : PEffect → Bool
  | .sentMsg _ (.pyDict kvs) => kvsTypeIsMeshConnect kvs
  | _ => false

/-- The `for addr_port in self.peers: self.remove_user(addr_port)` loop of
`HostNode.remove_all_users`, with CPython's dict-iterator semantics: every
call of the iterator's `next` (including the exhausting one) first checks
that the dict still has the size it had when iteration started and raises
`RuntimeError` otherwise. -/
def HostNode.remove_all_loop (initSize : Nat) (ks : List AddrPort)
    (st : HostNode) (effs : List PEffect) :
    HostNode × List PEffect × Option PyErr :=
  match ks with
  | [] =>
      if st.peers.length ≠ initSize then (st, effs, some .runtimeError)
      else (st, effs, none)
  | k :: rest =>
      if st.peers.length ≠ initSize then (st, effs, some .runtimeError)
      else
        let (st', ef) := st.remove_user k
        HostNode.remove_all_loop initSize rest st' (effs ++ ef)

/-- `HostNode.remove_all_users` (after the blocking
`connection_thread.join()`): run the cleanup loop; `self.peers = {}` runs
only if no exception escaped the loop. -/
def HostNode.remove_all_users (st : HostNode) :
    HostNode × List PEffect × Option PyErr :=
  let r := HostNode.remove_all_loop st.peers.length
      (st.peers.map (fun kv => kv.1)) st []
  match r.2.2 with
  | some _ => r
  | none => ({ r.1 with peers := [] }, r.2.1, none)

/-! Helper lemmas about the peer table. -/

theorem peersContains_of_mem (ps : List (AddrPort × PeerInfo))
    (kv : AddrPort × PeerInfo) (h : kv ∈ ps) :
    peersContains ps kv.1 = true := by
  unfold peersContains
  exact List.any_eq_true.mpr ⟨kv, h, by simp⟩

theorem peersContains_of_get (ps : List (AddrPort × PeerInfo))
    (a : AddrPort) (p : PeerInfo) (h : peersGet ps a = some p) :
    peersContains ps a = true := by
  unfold peersGet at h
  rcases hf : ps.find? (fun kv => kv.1 = a) with _ | kv
  · rw [hf] at h; cases h
  · have hmem := List.mem_of_find?_eq_some hf
    have hpred := List.find?_some hf
    unfold peersContains
    exact List.any_eq_true.mpr ⟨kv, hmem, hpred⟩

theorem peersGet_peersSet (ps : List (AddrPort × PeerInfo)) (a : AddrPort)
    (p p' : PeerInfo) (h : peersGet ps a = some p) :
    peersGet (peersSet ps a p') a = some p' := by
  induction ps with
  | nil => cases h
  | cons kv rest ih =>
      by_cases hk : kv.1 = a
      · simp [peersSet, peersGet, hk]
      · have h' : peersGet rest a = some p := by
          simpa [peersGet, List.find?_cons, hk] using h
        simpa [peersSet, peersGet, List.find?_cons, hk] using ih h'

theorem peersDel_peersSet (ps : List (AddrPort × PeerInfo)) (a : AddrPort)
    (p' : PeerInfo) :
    peersDel (peersSet ps a p') a = peersDel ps a := by
  induction ps with
  | nil => rfl
  | cons kv rest ih =>
      by_cases hk : kv.1 = a
      · simpa [peersDel, peersSet, hk] using ih
      · simpa [peersDel, peersSet, hk] using ih

theorem foldr_append_singletons {α β : Type} (l : List α) (f : α → List β)
    (g : α → β) (h : ∀ x ∈ l, f x = [g x]) :
    (l.map f).foldr (fun a b => a ++ b) [] = l.map g := by
  induction l with
  | nil => rfl
  | cons x rest ih =>
      simp only [List.map_cons, List.foldr_cons, h x (by simp),
        ih (fun y hy => h y (by simp [hy])), List.singleton_append]

theorem broadcast_eq (st : HostNode) (msg : String) :
    st.broadcast_message msg =
      st.peers.map (fun kv => .sentMsg kv.1 (P2PTextDict msg)) := by
  unfold HostNode.broadcast_message
  exact foldr_append_singletons st.peers _ _
    (fun kv hkv => by
      simp [HostNode.direct_message, peersContains_of_mem st.peers kv hkv])

/-- A mesh host state with one connected peer that never sent
REGISTER_PORT: its `listen_p2p_port` field still holds the `(addr, port)`
connection tuple that `add_new_peer` initialized it with. -/
def meshHostEx : HostNode :=
  { username := HOST_USERNAME, meetingID := 5,
    peers := [(("10.0.0.1", 50000),
      { user_warnings := 0, username := DEFAULT_USERNAME,
        listen_p2p_port := .tupleVal ("10.0.0.1", 50000) })],
    listen_p2p_port := 3100 }

/-- Claim C4 (as stated) is refuted by this input: `meshHostEx` has a
single peer with no registered listen port, yet on accepting a new
connection the mesh host includes that peer in the MESH_CONNECT payload
(with the connection tuple standing in for the port), because the
truthiness filter never excludes the tuple-initialized field.  The claim
requires an empty payload here. -/
theorem claim_C4_counterexample :
    (meshHostEx.peers.all (fun kv =>
        match kv.2.listen_p2p_port with
        | .tupleVal _ => true
        | .intVal _ => false) = true) ∧
    (MeshHostNode.accept_one meshHostEx ("10.0.0.2", 50001)).2 =
      [.sentMsg ("10.0.0.2", 50001) (RegisterUsernameDict HOST_USERNAME),
       .sentMsg ("10.0.0.2", 50001)
         (P2PTextDict "You are connected to host of meeting 5."),
       .sentMsg ("10.0.0.2", 50001) (MeshConnectDict
         (payloadPy [("10.0.0.1", .tupleVal ("10.0.0.1", 50000))]))] ∧
    payloadPy [("10.0.0.1", .tupleVal ("10.0.0.1", 50000))] ≠ [] := by
  refine ⟨rfl, rfl, ?_⟩
  intro h
  simp [payloadPy] at h

/-- Claim C4, amended: only the mesh HOST sends MESH_CONNECT on accepting
an inbound connection; the payload is computed from the peer table as it
was before the new peer was registered, and lists a pair for every
existing peer whose `listen_p2p_port` field is truthy — which includes
peers that have not registered a port, because the field is initialized
to the peer's (addr, port) tuple and a tuple is truthy.  The generic
accept loop (star hosts, mesh audience nodes) sends no MESH_CONNECT. -/
theorem claim_C4 (st : HostNode) (conn : AddrPort) :
    (MeshHostNode.accept_one st conn).2 =
      [.sentMsg conn (RegisterUsernameDict HOST_USERNAME),
       .sentMsg conn (P2PTextDict st.welcome_message)] ++
        (st.add_new_peer conn DEFAULT_USERNAME).2 ++
        [.sentMsg conn (MeshConnectDict (payloadPy (mesh_payload st.peers)))] ∧
    (MeshHostNode.accept_one st conn).1 =
      (st.add_new_peer conn DEFAULT_USERNAME).1 ∧
    (∀ a p, (a, p) ∈ st.peers → p.listen_p2p_port.truthy = true →
       (a.1, p.listen_p2p_port) ∈ mesh_payload st.peers) ∧
    (∀ x, (ListenPortVal.tupleVal x).truthy = true) ∧
    (HostNode.accept_one st conn).2.all (fun e => !(isMeshConnectMsg e))
      = true := by
  refine ⟨rfl, rfl, ?_, fun x => rfl, ?_⟩
  · intro a p hmem htruthy
    unfold mesh_payload
    exact List.mem_filterMap.mpr ⟨(a, p), hmem, by simp [htruthy]⟩
  · by_cases h : peersContains st.peers conn = true <;>
      simp [HostNode.accept_one, HostNode.add_new_peer, h, isMeshConnectMsg,
            kvsTypeIsMeshConnect, pyD, pyFields,
            RegisterUsernameDict, P2PTextDict, P2P_REGISTER_USERNAME,
            P2P_MESH_CONNECT, P2P_TEXT]

/-- Witness for C4 (amended): at the concrete state `meshHostEx` the
unregistered peer is included in the payload. -/
theorem claim_C4_witness :
    (("10.0.0.1" : String), ListenPortVal.tupleVal ("10.0.0.1", 50000)) ∈
      mesh_payload meshHostEx.peers := by
  have h := (claim_C4 meshHostEx ("10.0.0.2", 50001)).2.2.1
  exact h ("10.0.0.1", 50000)
    { user_warnings := 0, username := DEFAULT_USERNAME,
      listen_p2p_port := .tupleVal ("10.0.0.1", 50000) }
    (by simp [meshHostEx]) rfl

/-- Claim C5: star-host moderation.  With the sender present in the peer
table: a TEXT containing none of the disallowed substrings is broadcast
to every connected spoke prefixed with the sender's username and the
state is unchanged; a TEXT containing a disallowed substring is not
broadcast — the sender's warning counter is incremented and it receives a
private warning naming the new count; and when the count reaches
`MAX_WARNINGS` (3), the host additionally sends a farewell, stops the
peer's listener, closes its connection and deletes its entry. -/
theorem claim_C5 (st : HostNode) (addr_port : AddrPort) (p : PeerInfo)
    (q : String) (hget : peersGet st.peers addr_port = some p) :
    (BAD_WORDS.all (fun bw => !(strContains q bw)) = true →
       StarHostNode.handle_question st addr_port q =
         .ok (st, st.peers.map (fun kv => .sentMsg kv.1
             (P2PTextDict ("Question from " ++ p.username ++ ": '" ++ q ++ "'"))))) ∧
    (BAD_WORDS.all (fun bw => !(strContains q bw)) = false →
       (p.user_warnings + 1 ≠ MAX_WARNINGS →
          StarHostNode.handle_question st addr_port q =
            .ok ({ st with peers := peersSet st.peers addr_port { p with user_warnings := p.user_warnings + 1 } },
                 [.sentMsg addr_port (P2PTextDict
                    ("This is warning number " ++
                       toString (p.user_warnings + 1) ++ "."))])) ∧
       (p.user_warnings + 1 = MAX_WARNINGS →
          StarHostNode.handle_question st addr_port q =
            .ok ({ st with peers := peersDel st.peers addr_port },
                 [.sentMsg addr_port (P2PTextDict "This is warning number 3."),
                  .sentMsg addr_port (P2PTextDict "\nGoodbye."),
                  .stoppedThread addr_port, .closedConn addr_port]))) := by
  have hget' : peersGet (peersSet st.peers addr_port
      { p with user_warnings := p.user_warnings + 1 }) addr_port =
      some { p with user_warnings := p.user_warnings + 1 } :=
    peersGet_peersSet st.peers addr_port p _ hget
  have hcont' : peersContains (peersSet st.peers addr_port
      { p with user_warnings := p.user_warnings + 1 }) addr_port = true :=
    peersContains_of_get _ _ _ hget'
  constructor
  · intro hclean
    simp [StarHostNode.handle_question, HostNode.get_username, hget, hclean,
          broadcast_eq, Bind.bind, Except.bind]
  · intro hdirty
    constructor
    · intro hlt
      have hne : ((p.user_warnings + 1 == MAX_WARNINGS) = false) := by
        simpa using hlt
      simp [StarHostNode.handle_question, HostNode.get_username, hget,
            hdirty, HostNode.give_warning, HostNode.get_user_warnings,
            hget', hne, HostNode.direct_message, hcont', Bind.bind,
            Except.bind]
    · intro heq
      have hbe : ((p.user_warnings + 1 == MAX_WARNINGS) = true) := by
        simpa using heq
      have h3 : toString (p.user_warnings + 1) = "3" := by
        rw [heq]; rfl
      simp [StarHostNode.handle_question, HostNode.get_username, hget,
            hdirty, HostNode.give_warning, HostNode.get_user_warnings,
            hget', hbe, HostNode.direct_message, hcont',
            HostNode.remove_user, peersDel_peersSet, h3, Bind.bind,
            Except.bind]

/-- A star host with two spokes; "mallory" already has 2 warnings. -/
def starHostEx : HostNode :=
  { username := HOST_USERNAME, meetingID := 7,
    peers := [(("9.9.9.9", 1111),
      { user_warnings := 2, username := "mallory",
        listen_p2p_port := .tupleVal ("9.9.9.9", 1111) }),
      (("8.8.8.8", 2222),
      { user_warnings := 0, username := "bob",
        listen_p2p_port := .tupleVal ("8.8.8.8", 2222) })],
    listen_p2p_port := 3100 }

/-- Witness for C5: at `starHostEx`, a clean question from "bob" is
broadcast to both spokes with his name prefixed, and a third bad-word
message from "mallory" draws warning number 3, a farewell, and removal. -/
theorem claim_C5_witness :
    StarHostNode.handle_question starHostEx ("8.8.8.8", 2222) "hello" =
      .ok (starHostEx,
        [.sentMsg ("9.9.9.9", 1111)
           (P2PTextDict "Question from bob: 'hello'"),
         .sentMsg ("8.8.8.8", 2222)
           (P2PTextDict "Question from bob: 'hello'")]) ∧
    StarHostNode.handle_question starHostEx ("9.9.9.9", 1111) "say xxx now" =
      .ok ({ starHostEx with peers := peersDel starHostEx.peers ("9.9.9.9", 1111) },
        [.sentMsg ("9.9.9.9", 1111) (P2PTextDict "This is warning number 3."),
         .sentMsg ("9.9.9.9", 1111) (P2PTextDict "\nGoodbye."),
         .stoppedThread ("9.9.9.9", 1111), .closedConn ("9.9.9.9", 1111)]) := by
  constructor
  · have h := (claim_C5 starHostEx ("8.8.8.8", 2222)
        { user_warnings := 0, username := "bob",
          listen_p2p_port := .tupleVal ("8.8.8.8", 2222) } "hello" rfl).1
    rw [h (by decide)]
    rfl
  · have h := ((claim_C5 starHostEx ("9.9.9.9", 1111)
        { user_warnings := 2, username := "mallory",
          listen_p2p_port := .tupleVal ("9.9.9.9", 1111) } "say xxx now"
        rfl).2 (by decide)).2
    rw [h (by decide)]

/-- An overlay node with an empty peer table. -/
def hostNodeEx : HostNode :=
  { username := HOST_USERNAME, meetingID := 0, peers := [],
    listen_p2p_port := 3100 }

/-- Claim C9 is contradicted by `get_username`: every other per-peer
operation logs and no-ops on an unknown `(addr, port)` identity, but
`get_username` calls `unknown_peer_error(addr_port)` without the required
`msg` argument, raising `TypeError` instead of logging and returning.
This theorem evaluates each operation at the failing input. -/
theorem claim_C9 :
    HostNode.get_username hostNodeEx ("10.0.0.1", 4000) =
      .error .typeError ∧
    hostNodeEx.set_p2p_port ("10.0.0.1", 4000) 5000 =
      (hostNodeEx, [unknown_peer_error ("10.0.0.1", 4000) "for set_p2p_port"]) ∧
    hostNodeEx.set_username ("10.0.0.1", 4000) "x" =
      (hostNodeEx, [unknown_peer_error ("10.0.0.1", 4000) "for set_username"]) ∧
    hostNodeEx.give_warning ("10.0.0.1", 4000) =
      (hostNodeEx, [unknown_peer_error ("10.0.0.1", 4000) "for give_warning"]) ∧
    hostNodeEx.get_user_warnings ("10.0.0.1", 4000) =
      (0, [unknown_peer_error ("10.0.0.1", 4000) "for get_user_warnings"]) ∧
    hostNodeEx.remove_user ("10.0.0.1", 4000) =
      (hostNodeEx, [unknown_peer_error ("10.0.0.1", 4000) "for remove_user"]) ∧
    hostNodeEx.direct_message ("10.0.0.1", 4000) "hi" =
      [unknown_peer_error ("10.0.0.1", 4000) "for direct_message"] := by
  exact ⟨rfl, rfl, rfl, rfl, rfl, rfl, rfl⟩

/-- Claim C10: when `remove_all_users` reaches its cleanup loop with a
non-empty peer table, the first `remove_user` deletes the first entry
from the dict being iterated, so the iterator's next size check raises
`RuntimeError`: the loop stops after removing only the first peer and the
remaining entries survive. -/
theorem claim_C10 (st : HostNode) (k0 : AddrPort) (p0 : PeerInfo)
    (ps : List (AddrPort × PeerInfo))
    (hpeers : st.peers = (k0, p0) :: ps)
    (hkeys : ∀ q ∈ ps, q.1 ≠ k0) :
    st.remove_all_users =
      ({ st with peers := ps },
       [.stoppedThread k0, .closedConn k0], some .runtimeError) := by
  have hdel : peersDel ((k0, p0) :: ps) k0 = ps := by
    unfold peersDel
    rw [List.filter_cons_of_neg (by simp)]
    exact List.filter_eq_self.mpr (fun q hq => by simp [hkeys q hq])
  have hcont : peersContains ((k0, p0) :: ps) k0 = true := by
    simp [peersContains]
  unfold HostNode.remove_all_users
  rw [hpeers]
  simp only [List.length_cons, List.map_cons]
  unfold HostNode.remove_all_loop
  simp only [List.length_cons, hpeers, if_neg (by omega : ¬(ps.length + 1 ≠ ps.length + 1))]
  simp only [HostNode.remove_user, hpeers, hcont, if_pos, hdel]
  cases hks : ps.map (fun kv => kv.1) with
  | nil =>
      have hlen : ps.length = 0 := by simpa using congrArg List.length hks
      unfold HostNode.remove_all_loop
      simp [hlen]
  | cons k1 krest =>
      unfold HostNode.remove_all_loop
      simp

/-- Witness for C10: a node with two peers; `remove_all_users` removes
only the first and raises `RuntimeError`. -/
theorem claim_C10_witness :
    HostNode.remove_all_users starHostEx =
      ({ starHostEx with peers := [(("8.8.8.8", 2222),
           { user_warnings := 0, username := "bob",
             listen_p2p_port := .tupleVal ("8.8.8.8", 2222) })] },
       [.stoppedThread ("9.9.9.9", 1111), .closedConn ("9.9.9.9", 1111)],
       some .runtimeError) := by
  exact claim_C10 starHostEx ("9.9.9.9", 1111)
    { user_warnings := 2, username := "mallory",
      listen_p2p_port := .tupleVal ("9.9.9.9", 1111) }
    [(("8.8.8.8", 2222),
      { user_warnings := 0, username := "bob",
        listen_p2p_port := .tupleVal ("8.8.8.8", 2222) })]
    rfl (by decide)

/-! ### C7: decode robustness -/

theorem setIn_keys : ∀ (acc : SMAttrs) (k k' : String) (a : SMAttr),
    k' ∈ (setIn acc k a).keys → k' = k ∨ k' ∈ acc.keys
  | .nil, k, k', a, h => by
      simp [setIn, SMAttrs.keys] at h
      exact Or.inl h
  | .cons k0 a0 rest, k, k', a, h => by
      unfold setIn at h
      by_cases hk : k0 = k
      · rw [if_pos hk] at h
        rcases (by simpa [SMAttrs.keys] using h :
            k' = k ∨ k' ∈ SMAttrs.keys rest) with h1 | h1
        · exact Or.inl h1
        · exact Or.inr (by simp [SMAttrs.keys, h1])
      · rw [if_neg hk] at h
        rcases (by simpa [SMAttrs.keys] using h :
            k' = k0 ∨ k' ∈ (setIn rest k a).keys) with h1 | h1
        · exact Or.inr (by simp [SMAttrs.keys, h1])
        · rcases setIn_keys rest k k' a h1 with h2 | h2
          · exact Or.inl h2
          · exact Or.inr (by simp [SMAttrs.keys, h2])

/-- Every attribute `__init__` sets is one of the declared `msg_fields`:
unknown fields are dropped. -/
theorem buildAttrs_keys :
    ∀ (fields : List String) (kvs : PyKVs) (acc : SMAttrs),
    (∀ k, k ∈ acc.keys → k ∈ fields) →
    ∀ k, k ∈ (buildAttrs fields kvs acc).keys → k ∈ fields
  | fields, .nil, acc, hacc, k, h => hacc k (by simpa [buildAttrs] using h)
  | fields, .cons k0 v0 rest, acc, hacc, k, h => by
      unfold buildAttrs at h
      by_cases hk : k0 ∈ fields
      · rw [if_pos hk] at h
        refine buildAttrs_keys fields rest _ ?_ k h
        intro k1 h1
        rcases setIn_keys acc k0 k1 _ h1 with h2 | h2
        · exact h2 ▸ hk
        · exact hacc k1 h2
      · rw [if_neg hk] at h
        exact buildAttrs_keys fields rest acc hacc k h

/-- Claim C7 (as stated) is refuted by this input: the byte string `5` is
valid JSON, so `json.loads` succeeds inside the `try`, but the
`MessageType` constructor then iterates the resulting `int`, raising
`TypeError` out of `decode_message`. -/
theorem claim_C7_counterexample :
    json_loads "5" = some (.pyInt 5) ∧
    decode_message "5" MeetingRequestInit = .error .typeError ∧
    decode_message "5" ServerResponseInit = .error .typeError ∧
    decode_message "5" P2PMessageInit = .error .typeError := by
  exact ⟨rfl, rfl, rfl, rfl⟩

/-- Claim C7, amended: malformed JSON yields null for every family; a
JSON *object* yields a message object without raising, and every
attribute the constructor sets is a declared field (unknown/extra fields
are silently dropped); but a valid JSON value that is not an object can
raise `TypeError` out of decode — see the counterexample. -/
theorem claim_C7 (s : String) (kvs : PyKVs) :
    (json_loads s = none →
       decode_message s MeetingRequestInit = .ok none ∧
       decode_message s ServerResponseInit = .ok none ∧
       decode_message s P2PMessageInit = .ok none) ∧
    (json_loads s = some (.pyDict kvs) →
       decode_message s MeetingRequestInit =
         .ok (some (initDict REQUEST_FIELDS kvs)) ∧
       decode_message s ServerResponseInit =
         .ok (some (initDict RESPONSE_FIELDS kvs)) ∧
       (∃ m, decode_message s P2PMessageInit = .ok (some m)) ∧
       (∀ fields k, k ∈ (buildAttrs fields kvs .nil).keys → k ∈ fields)) := by
  constructor
  · intro hnone
    simp [decode_message, hnone]
  · intro hdict
    refine ⟨?_, ?_, ?_, ?_⟩
    · simp [decode_message, hdict, MeetingRequestInit, socketMessageInit,
            Except.map]
    · simp [decode_message, hdict, ServerResponseInit, socketMessageInit,
            Except.map]
    · by_cases hmsg : hasMessageKey (.pyDict kvs)
      · exact ⟨initDict P2P_MESSAGE_FIELDS kvs,
          by simp [decode_message, hdict, P2PMessageInit, socketMessageInit,
                   hmsg, Bind.bind, Except.bind, Except.map, pure,
                   Except.pure]⟩
      · exact ⟨setAttrTop (initDict P2P_MESSAGE_FIELDS kvs) "message"
            (.val (.pyStr "")),
          by simp [decode_message, hdict, P2PMessageInit, socketMessageInit,
                   hmsg, Bind.bind, Except.bind, Except.map, pure,
                   Except.pure]⟩
    · intro fields k h
      exact buildAttrs_keys fields kvs .nil (by simp [SMAttrs.keys]) k h

/-- Witness for C7 (amended): malformed input decodes to null; a JSON
object with the unknown field `foo` constructs fine and the unknown field
is dropped. -/
theorem claim_C7_witness :
    decode_message "not json" MeetingRequestInit = .ok none ∧
    decode_message "\x7b\"foo\": 1, \"type\": \"list\"\x7d"
        MeetingRequestInit =
      .ok (some (initDict REQUEST_FIELDS
        (pyFields [("foo", .pyInt 1), ("type", .pyStr "list")]))) ∧
    "foo" ∉ (buildAttrs REQUEST_FIELDS
        (pyFields [("foo", .pyInt 1), ("type", .pyStr "list")]) .nil).keys
    := by
  have h1 := (claim_C7 "not json" .nil).1 (by rfl)
  have h2 := (claim_C7 "\x7b\"foo\": 1, \"type\": \"list\"\x7d"
      (pyFields [("foo", .pyInt 1), ("type", .pyStr "list")])).2 (by rfl)
  refine ⟨h1.1, h2.1, ?_⟩
  intro hmem
  have := h2.2.2.2 REQUEST_FIELDS "foo" hmem
  exact absurd this (by decide)

/-! ### C8: the encode/decode round-trip law -/

/-- The key/value items of a dict value. -/
def dictKVs : PyVal → PyKVs
  | .pyDict kvs => kvs
  | _ => .nil

/-- `MeetingRequest(kvs)` as an object. -/
def mkRequest (kvs : PyKVs) : SMAttr :=
  initDict REQUEST_FIELDS kvs

/-- `ServerResponse(kvs)` as an object. -/
def mkResponse (kvs : PyKVs) : SMAttr :=
  initDict RESPONSE_FIELDS kvs

/-- `P2PMessage(kvs)` as an object (with the defaulted empty `message`
attribute when the dict has no `"message"` key). -/
def mkP2P (kvs : PyKVs) : SMAttr :=
  if kvs.hasKey "message" then initDict P2P_MESSAGE_FIELDS kvs
  else setAttrTop (initDict P2P_MESSAGE_FIELDS kvs) "message"
    (.val (.pyStr ""))

/-- Decode-then-validate with a family pair, as a caller of
`decode_message` followed by `is_valid` would do. -/
def revalidate (init : PyVal → Except PyErr SMAttr)
    (valid : SMAttr → Except PyErr Bool) (m : SMAttr) : Except PyErr Bool :=
  match init (smGetDict m) with
  | .error e => .error e
  | .ok m' => valid m'

/-- Claim C8: for every well-formed concrete message variant of the three
families, `encode` produces the JSON serialization of `_get_dict`
followed by the single delimiter byte, and re-constructing the family
object from the encoded dict (the wire round trip of the `json` library)
yields a message whose `is_valid()` is true. -/
theorem claim_C8 (mid : Int) (user host : String) (hport lport : Nat)
    (rport : Int) (mlist : List (Int × String)) (addr_ports : List PyVal)
    (text errmsg : String) (cid : Nat) :
    (revalidate MeetingRequestInit MeetingRequestIsValid
        (mkRequest (dictKVs ListRequestDict)) = .ok true ∧
     revalidate MeetingRequestInit MeetingRequestIsValid
        (mkRequest (dictKVs (JoinRequestDict mid user))) = .ok true ∧
     revalidate MeetingRequestInit MeetingRequestIsValid
        (mkRequest (dictKVs CreateStarRequestDict)) = .ok true ∧
     revalidate MeetingRequestInit MeetingRequestIsValid
        (mkRequest (dictKVs CreateMeshRequestDict)) = .ok true) ∧
    (revalidate ServerResponseInit ServerResponseIsValid
        (mkResponse (dictKVs (ListResponseDict mlist))) = .ok true ∧
     revalidate ServerResponseInit ServerResponseIsValid
        (mkResponse (dictKVs (JoinStarSuccessDict host hport user))) = .ok true ∧
     revalidate ServerResponseInit ServerResponseIsValid
        (mkResponse (dictKVs (JoinMeshSuccessDict host hport user lport))) = .ok true ∧
     revalidate ServerResponseInit ServerResponseIsValid
        (mkResponse (dictKVs (JoinFailureDict errmsg))) = .ok true ∧
     revalidate ServerResponseInit ServerResponseIsValid
        (mkResponse (dictKVs (CreateStarSuccessDict cid lport))) = .ok true ∧
     revalidate ServerResponseInit ServerResponseIsValid
        (mkResponse (dictKVs (CreateMeshSuccessDict cid lport))) = .ok true) ∧
    (revalidate P2PMessageInit P2PMessageIsValid
        (mkP2P (dictKVs (P2PTextDict text))) = .ok true ∧
     revalidate P2PMessageInit P2PMessageIsValid
        (mkP2P (dictKVs (RegisterUsernameDict user))) = .ok true ∧
     revalidate P2PMessageInit P2PMessageIsValid
        (mkP2P (dictKVs (RegisterPortDict rport))) = .ok true ∧
     revalidate P2PMessageInit P2PMessageIsValid
        (mkP2P (dictKVs (MeshConnectDict addr_ports))) = .ok true) ∧
    (smEncode (mkRequest (dictKVs (JoinRequestDict mid user))) =
       json_dumps (smGetDict (mkRequest (dictKVs (JoinRequestDict mid user))))
         ++ MSG_DELIM ∧
     smEncode (mkP2P (dictKVs (P2PTextDict text))) =
       json_dumps (smGetDict (mkP2P (dictKVs (P2PTextDict text))))
         ++ MSG_DELIM) := by
  exact ⟨⟨rfl, rfl, rfl, rfl⟩, ⟨rfl, rfl, rfl, rfl, rfl, rfl⟩,
    ⟨rfl, rfl, rfl, rfl⟩, rfl, rfl⟩

end P2PMeetings
